import Mathlib

/-!
Verification of the Storybook fixture
`PartitionSegmentWithPopover.stories.tsx` from the dagster UI package.

JS strings are embedded as lists of Unicode code points (`List Nat`), so the
character-level operations of the fixture (`toLowerCase`, `replace(/ /g, '-')`)
become pointwise maps over code points.  The randomness of `faker` is embedded
as an oracle `draws : Nat → JSStr × JSStr` giving the two words of the i-th
draw.  The four story exports become pure functions from the oracle to the
props record handed to the external component.
-/

/-- A JS string, embedded as its list of Unicode code points. -/
abbrev JSStr := List Nat

/-- Decode a list of Lean characters into code points (used only to spell
out the fixture's string literals). -/
def codes (cs : List Char) : JSStr := cs.map Char.toNat

/-- Code points of the string literal foo (first asset-key path segment). -/
def strFoo : JSStr := codes (['f', 'o', 'o'])

/-- Code points of the string literal bar (second asset-key path segment). -/
def strBar : JSStr := codes (['b', 'a', 'r'])

/-- Code points of the description literal is_missing. -/
def strIsMissing : JSStr := codes (['i', 's', '_', 'm', 'i', 's', 's', 'i', 'n', 'g'])

/-- Lowercasing of one code point on the ASCII range: 65..90 (A..Z) shifts
by 32 to 97..122 (a..z), everything else is unchanged. -/
def jsLowerChar (n : Nat) : Nat := if 65 ≤ n ∧ n ≤ 90 then n + 32 else n

/-- One step of `.replace(/ /g, '-')`: a space code point (32) becomes a
hyphen code point (45), everything else is unchanged. -/
def jsSpaceToHyphen (n : Nat) : Nat := if n = 32 then 45 else n

/-- JS `String.prototype.toLowerCase()` on the ASCII range.  The fixture only
ever lowercases faker dictionary words, which are ASCII. -/
def jsToLowerCase (s : JSStr) : JSStr := s.map jsLowerChar

/-- JS `.replace(/ /g, '-')`: a single-character global replace is a
pointwise map over the code points. -/
def jsReplaceSpaces (s : JSStr) : JSStr := s.map jsSpaceToHyphen

/-- Modelled from the spec: `faker.random.words(2)` (the faker library is
external to this repository slice) returns a phrase of two randomly drawn
dictionary words joined by a single space (code point 32). -/
def fakerWords2 (w1 w2 : JSStr) : JSStr := w1 ++ 32 :: w2

/-- A faker dictionary word: nonempty and containing no space. -/
def fakerWord (w : JSStr) : Prop := w ≠ [] ∧ 32 ∉ w

instance (w : JSStr) : Decidable (fakerWord w) := by
  unfold fakerWord
  infer_instance

/-- One generated label:
`faker.random.words(2).toLowerCase().replace(/ /g, '-')`,
with the two words of the draw passed explicitly. -/
def makeLabel (w1 w2 : JSStr) : JSStr :=
  jsReplaceSpaces (jsToLowerCase (fakerWords2 w1 w2))

/-- The label-generation helper
`new Array(n).fill(null).map(() => faker.random.words(2).toLowerCase().replace(/ /g, '-'))`:
the filled array is dense, so the callback runs once per index, consuming
draw i of the random oracle at index i. -/
def genPartitionKeys (draws : Nat → JSStr × JSStr) (n : Nat) : List JSStr :=
  (List.range n).map (fun i => makeLabel (draws i).1 (draws i).2)

/-- The shape of `assetKey` in the mock subset: a record with a `path` list. -/
structure AssetKey where
  path : List JSStr

/-- Modelled from the spec: a partition-key range (the GraphQL type is not in
the slice); only its absence matters here, so any record shape suffices. -/
structure PartitionKeyRange where
  startKey : JSStr
  endKey : JSStr

/-- The `subsetValue` record fabricated by each story. `boolValue` is
tri-state (`none` embeds JS null/absent). `partitionKeyRanges` is nullable. -/
structure SubsetValue where
  boolValue : Option Bool
  partitionKeys : List JSStr
  partitionKeyRanges : Option (List PartitionKeyRange)
  isPartitioned : Bool

/-- The mock subset object: an asset key plus a subset value. -/
structure Subset where
  assetKey : AssetKey
  subsetValue : SubsetValue

/-- Modelled from the spec: the closed enumeration of evaluation outcomes
from the GraphQL types module (not in the slice); only the three values
exercised by the stories are modelled. -/
inductive AssetConditionEvaluationStatus where
  | TRUE
  | FALSE
  | SKIPPED
deriving DecidableEq

/-- Result of invoking a JS callback: either the JS undefined value (what a
function with an empty body returns) or some string value. -/
inductive JsCallbackResult where
  | jsUndefined
  | jsValue (v : JSStr)
deriving DecidableEq

/-- The props the stories pass to the external `PartitionSegmentWithPopover`
component, inferred strictly from usage: a description label, a status, the
mock subset, and the partition-selection callback. -/
structure PartitionSegmentWithPopoverProps where
  description : JSStr
  status : AssetConditionEvaluationStatus
  subset : Subset
  selectPartition : JSStr → JsCallbackResult

/-- Module constant: partition count used by the three large stories. -/
def PARTITION_COUNT : Nat := 300

/-- The `TruePartitions` story: 300 generated keys, `boolValue: true`,
status TRUE, no-op `selectPartition`. -/
def TruePartitions (draws : Nat → JSStr × JSStr) : PartitionSegmentWithPopoverProps :=
  { description := strIsMissing,
    status := AssetConditionEvaluationStatus.TRUE,
    subset :=
      { assetKey := { path := [strFoo, strBar] },
        subsetValue :=
          { boolValue := some true,
            partitionKeys := genPartitionKeys draws PARTITION_COUNT,
            partitionKeyRanges := none,
            isPartitioned := true } },
    selectPartition := fun _ => JsCallbackResult.jsUndefined }

/-- The `FalsePartitions` story: 300 generated keys, `boolValue: false`,
status FALSE, no-op `selectPartition`. -/
def FalsePartitions (draws : Nat → JSStr × JSStr) : PartitionSegmentWithPopoverProps :=
  { description := strIsMissing,
    status := AssetConditionEvaluationStatus.FALSE,
    subset :=
      { assetKey := { path := [strFoo, strBar] },
        subsetValue :=
          { boolValue := some false,
            partitionKeys := genPartitionKeys draws PARTITION_COUNT,
            partitionKeyRanges := none,
            isPartitioned := true } },
    selectPartition := fun _ => JsCallbackResult.jsUndefined }

/-- The `SkippedPartitions` story: 300 generated keys, `boolValue: null`,
status SKIPPED, no-op `selectPartition`. -/
def SkippedPartitions (draws : Nat → JSStr × JSStr) : PartitionSegmentWithPopoverProps :=
  { description := strIsMissing,
    status := AssetConditionEvaluationStatus.SKIPPED,
    subset :=
      { assetKey := { path := [strFoo, strBar] },
        subsetValue :=
          { boolValue := none,
            partitionKeys := genPartitionKeys draws PARTITION_COUNT,
            partitionKeyRanges := none,
            isPartitioned := true } },
    selectPartition := fun _ => JsCallbackResult.jsUndefined }

/-- The `FewPartitions` story: 2 generated keys, `boolValue: true`,
status TRUE, no-op `selectPartition`. -/
def FewPartitions (draws : Nat → JSStr × JSStr) : PartitionSegmentWithPopoverProps :=
  { description := strIsMissing,
    status := AssetConditionEvaluationStatus.TRUE,
    subset :=
      { assetKey := { path := [strFoo, strBar] },
        subsetValue :=
          { boolValue := some true,
            partitionKeys := genPartitionKeys draws 2,
            partitionKeyRanges := none,
            isPartitioned := true } },
    selectPartition := fun _ => JsCallbackResult.jsUndefined }

/-- A lowercase word: nonempty, space-free, and containing no uppercase
ASCII letter (code points 65..90). -/
def isLowerWord (w : JSStr) : Prop :=
  w ≠ [] ∧ 32 ∉ w ∧ ∀ m ∈ w, ¬ (65 ≤ m ∧ m ≤ 90)

/-- Code points of the word hi, used as a concrete faker draw. -/
def strHi : JSStr := codes (['h', 'i'])

/-- Code points of the word yo, used as a concrete faker draw. -/
def strYo : JSStr := codes (['y', 'o'])

/-- Helper: the generated key list always has exactly n entries. -/
lemma length_genPartitionKeys (draws : Nat → JSStr × JSStr) (n : Nat) :
    (genPartitionKeys draws n).length = n := by
  simp [genPartitionKeys]

/-- C1: for every requested count n ≥ 0, the label-generation helper
returns a sequence with exactly n entries, whatever the random draws. -/
theorem genPartitionKeys_length (draws : Nat → JSStr × JSStr) (n : Nat) :
    (genPartitionKeys draws n).length = n :=
  length_genPartitionKeys draws n

/-- Helper: spaces never survive the space-to-hyphen step. -/
lemma jsSpaceToHyphen_ne_space (n : Nat) : jsSpaceToHyphen n ≠ 32 := by
  unfold jsSpaceToHyphen
  split <;> omega

/-- Helper: after lowering and hyphenation no code point is an uppercase
ASCII letter. -/
lemma jsSpaceToHyphen_jsLowerChar_not_upper (n : Nat) :
    ¬ (65 ≤ jsSpaceToHyphen (jsLowerChar n) ∧ jsSpaceToHyphen (jsLowerChar n) ≤ 90) := by
  unfold jsSpaceToHyphen jsLowerChar
  split <;> split <;> omega

/-- Helper: a label splits as the two processed words joined by one hyphen. -/
lemma makeLabel_eq (w1 w2 : JSStr) :
    makeLabel w1 w2 =
      jsReplaceSpaces (jsToLowerCase w1) ++ 45 :: jsReplaceSpaces (jsToLowerCase w2) := by
  simp [makeLabel, fakerWords2, jsToLowerCase, jsReplaceSpaces, jsLowerChar, jsSpaceToHyphen]

/-- Helper: processing any nonempty word yields a lowercase word. -/
lemma isLowerWord_processed (w : JSStr) (hw : w ≠ []) :
    isLowerWord (jsReplaceSpaces (jsToLowerCase w)) := by
  refine ⟨?_, ?_, ?_⟩
  · simpa [jsReplaceSpaces, jsToLowerCase] using hw
  · intro hmem
    rw [jsReplaceSpaces, jsToLowerCase, List.map_map] at hmem
    obtain ⟨k, _, hEq⟩ := List.mem_map.mp hmem
    exact jsSpaceToHyphen_ne_space (jsLowerChar k) hEq
  · intro m hm
    rw [jsReplaceSpaces, jsToLowerCase, List.map_map] at hm
    obtain ⟨k, _, hEq⟩ := List.mem_map.mp hm
    rw [Function.comp_apply] at hEq
    rw [← hEq]
    exact jsSpaceToHyphen_jsLowerChar_not_upper k

/-- C2: every label produced by the generator — lowercasing a random
two-word phrase and replacing every space with a hyphen — is two lowercase
words joined by a single hyphen (45) and contains no space (32). -/
theorem genPartitionKeys_label_shape (draws : Nat → JSStr × JSStr)
    (hd : ∀ i, fakerWord (draws i).1 ∧ fakerWord (draws i).2)
    (n : Nat) (l : JSStr) (hl : l ∈ genPartitionKeys draws n) :
    32 ∉ l ∧ ∃ u v, isLowerWord u ∧ isLowerWord v ∧ l = u ++ 45 :: v := by
  rw [genPartitionKeys] at hl
  obtain ⟨i, _, rfl⟩ := List.mem_map.mp hl
  have h1 := ((hd i).1).1
  have h2 := ((hd i).2).1
  rw [makeLabel_eq]
  constructor
  · intro hmem
    rcases List.mem_append.mp hmem with h | h
    · exact (isLowerWord_processed _ h1).2.1 h
    · rcases List.mem_cons.mp h with h45 | h
      · omega
      · exact (isLowerWord_processed _ h2).2.1 h
  · exact ⟨_, _, isLowerWord_processed _ h1, isLowerWord_processed _ h2, rfl⟩

/-- Witness for C2: the shape holds for the concrete draw (hi, yo) at
count 1. -/
theorem genPartitionKeys_label_shape_witness :
    32 ∉ makeLabel strHi strYo ∧
      ∃ u v, isLowerWord u ∧ isLowerWord v ∧ makeLabel strHi strYo = u ++ 45 :: v :=
  genPartitionKeys_label_shape (fun _ => (strHi, strYo))
    (fun _ => ⟨(by decide : fakerWord strHi), (by decide : fakerWord strYo)⟩) 1
    (makeLabel strHi strYo) (by decide)

/-- C3: in each of the four story variants `boolValue` takes exactly one of
some true, some false, none, and matches the status handed to the component:
true with TRUE, false with FALSE, absent with SKIPPED (and true with TRUE
again in FewPartitions). -/
theorem story_boolValue_matches_status (draws : Nat → JSStr × JSStr) :
    ((TruePartitions draws).subset.subsetValue.boolValue = some true ∧
      (TruePartitions draws).status = AssetConditionEvaluationStatus.TRUE) ∧
    ((FalsePartitions draws).subset.subsetValue.boolValue = some false ∧
      (FalsePartitions draws).status = AssetConditionEvaluationStatus.FALSE) ∧
    ((SkippedPartitions draws).subset.subsetValue.boolValue = none ∧
      (SkippedPartitions draws).status = AssetConditionEvaluationStatus.SKIPPED) ∧
    ((FewPartitions draws).subset.subsetValue.boolValue = some true ∧
      (FewPartitions draws).status = AssetConditionEvaluationStatus.TRUE) :=
  ⟨⟨rfl, rfl⟩, ⟨rfl, rfl⟩, ⟨rfl, rfl⟩, ⟨rfl, rfl⟩⟩

/-- C4: two invocations of the generator with the same count yield sequences
of the same length, whatever random draws each run consumed. -/
theorem genPartitionKeys_length_deterministic
    (d1 d2 : Nat → JSStr × JSStr) (n : Nat) :
    (genPartitionKeys d1 n).length = (genPartitionKeys d2 n).length := by
  rw [length_genPartitionKeys, length_genPartitionKeys]

/-- C5: the partitionKeys cardinality is PARTITION_COUNT = 300 for the
TruePartitions, FalsePartitions and SkippedPartitions stories, and 2 for
FewPartitions. -/
theorem story_partitionKeys_count (draws : Nat → JSStr × JSStr) :
    (TruePartitions draws).subset.subsetValue.partitionKeys.length = PARTITION_COUNT ∧
    (FalsePartitions draws).subset.subsetValue.partitionKeys.length = PARTITION_COUNT ∧
    (SkippedPartitions draws).subset.subsetValue.partitionKeys.length = PARTITION_COUNT ∧
    (FewPartitions draws).subset.subsetValue.partitionKeys.length = 2 ∧
    PARTITION_COUNT = 300 :=
  ⟨length_genPartitionKeys draws PARTITION_COUNT,
   length_genPartitionKeys draws PARTITION_COUNT,
   length_genPartitionKeys draws PARTITION_COUNT,
   length_genPartitionKeys draws 2, rfl⟩

/-- C6: in every mock subset built by any of the four stories the field
`partitionKeyRanges` is absent (null). -/
theorem story_partitionKeyRanges_absent (draws : Nat → JSStr × JSStr) :
    (TruePartitions draws).subset.subsetValue.partitionKeyRanges = none ∧
    (FalsePartitions draws).subset.subsetValue.partitionKeyRanges = none ∧
    (SkippedPartitions draws).subset.subsetValue.partitionKeyRanges = none ∧
    (FewPartitions draws).subset.subsetValue.partitionKeyRanges = none :=
  ⟨rfl, rfl, rfl, rfl⟩

/-- C7: in every mock subset built by any of the four stories the field
`isPartitioned` equals true. -/
theorem story_isPartitioned_true (draws : Nat → JSStr × JSStr) :
    (TruePartitions draws).subset.subsetValue.isPartitioned = true ∧
    (FalsePartitions draws).subset.subsetValue.isPartitioned = true ∧
    (SkippedPartitions draws).subset.subsetValue.isPartitioned = true ∧
    (FewPartitions draws).subset.subsetValue.isPartitioned = true :=
  ⟨rfl, rfl, rfl, rfl⟩

/-- C8: in every mock subset built by any of the four stories the asset key
is the same constant ordered path, foo then bar. -/
theorem story_assetKey_constant (draws : Nat → JSStr × JSStr) :
    (TruePartitions draws).subset.assetKey = AssetKey.mk [strFoo, strBar] ∧
    (FalsePartitions draws).subset.assetKey = AssetKey.mk [strFoo, strBar] ∧
    (SkippedPartitions draws).subset.assetKey = AssetKey.mk [strFoo, strBar] ∧
    (FewPartitions draws).subset.assetKey = AssetKey.mk [strFoo, strBar] :=
  ⟨rfl, rfl, rfl, rfl⟩

/-- C9: in every story variant the `selectPartition` callback is a no-op:
on any argument it returns the JS undefined value; as a pure function of its
argument it touches no state. -/
theorem story_selectPartition_noop (draws : Nat → JSStr × JSStr) (k : JSStr) :
    (TruePartitions draws).selectPartition k = JsCallbackResult.jsUndefined ∧
    (FalsePartitions draws).selectPartition k = JsCallbackResult.jsUndefined ∧
    (SkippedPartitions draws).selectPartition k = JsCallbackResult.jsUndefined ∧
    (FewPartitions draws).selectPartition k = JsCallbackResult.jsUndefined :=
  ⟨rfl, rfl, rfl, rfl⟩

/-- C10: the generator applies no deduplication: when the oracle repeats a
draw (here: every draw equal) and n ≥ 2, the generated list contains two
equal labels (it is not Nodup) while keeping all n entries. -/
theorem genPartitionKeys_no_dedup (w : JSStr × JSStr) (n : Nat) (h : 2 ≤ n) :
    ¬ (genPartitionKeys (fun _ => w) n).Nodup ∧
      (genPartitionKeys (fun _ => w) n).length = n := by
  have hrep : genPartitionKeys (fun _ => w) n =
      List.replicate n (makeLabel w.1 w.2) := by
    simp [genPartitionKeys, List.map_const']
  refine ⟨?_, length_genPartitionKeys _ n⟩
  rw [hrep]
  intro hnd
  rw [List.nodup_replicate] at hnd
  omega

/-- Witness for C10: with both draws equal to (hi, yo) and n = 2 the
generated list has a duplicate and still has 2 entries. -/
theorem genPartitionKeys_no_dedup_witness :
    ¬ (genPartitionKeys (fun _ => (strHi, strYo)) 2).Nodup ∧
      (genPartitionKeys (fun _ => (strHi, strYo)) 2).length = 2 :=
  genPartitionKeys_no_dedup (strHi, strYo) 2 (by decide)
